import Mathlib

/-!
Verification of `src/utils/security.js` ("Anti-cheat script for EchoViva 2.0").

The script is an IIFE that, unless a process-wide guard flag is already set,
registers a `visibilitychange` listener, a `blur` listener and a 1-second
`setInterval` devtools heuristic, and exposes `window.getEchoVivaCheatCount`.
Its mutable state is: `warningShown : bool`, `tabSwitchCount : int`,
`cheatAlert : element | null`, `devtoolsOpen : bool`.  We embed that state
and every handler as pure Lean functions; DOM side effects are reflected in
the `Notice` record (the warning `div`), and each handler additionally
returns the list of messages it passed to `showWarning` so that "a warning
fires" is observable.
-/

/-- The warning `div` created by `showWarning`: its inline style properties,
its `textContent`, and whether it has been appended to `document.body`.
`opacity` is the value of `style.opacity` (the empty string when never set,
as for a freshly created element). -/
structure Notice where
  position : String
  top : String
  right : String
  background : String
  color : String
  padding : String
  fontSize : String
  borderRadius : String
  zIndex : String
  boxShadow : String
  fontFamily : String
  transition : String
  textContent : String
  opacity : String
  inDocument : Bool
deriving DecidableEq, Repr

/-- The closure state of the IIFE: `warningShown`, `tabSwitchCount`,
`cheatAlert` and `devtoolsOpen` from the source, plus `createdCount`, a
ghost counter of how many times `document.createElement` has run inside
`showWarning` (used to state that at most one notice element ever exists). -/
structure SecurityState where
  warningShown : Bool
  tabSwitchCount : Nat
  cheatAlert : Option Notice
  devtoolsOpen : Bool
  createdCount : Nat
deriving DecidableEq, Repr

/-- State right after the first (guarded) initialisation:
`warningShown = false`, `tabSwitchCount = 0`, `cheatAlert = null`,
`devtoolsOpen = false`; no element has been created yet. -/
def initState : SecurityState :=
  { warningShown := false
    tabSwitchCount := 0
    cheatAlert := none
    devtoolsOpen := false
    createdCount := 0 }

/-- The `div` built in the create branch of `showWarning`, with every
`style` assignment of the source and `textContent = message`, appended to
`document.body`.  `style.opacity` is never assigned in this branch, so it
stays the empty string. -/
def freshNotice (message : String) : Notice :=
  { position := "fixed"
    top := "10px"
    right := "10px"
    background := "linear-gradient(135deg, rgba(255, 0, 0, 0.8), rgba(255, 100, 100, 0.8))"
    color := "white"
    padding := "12px 16px"
    fontSize := "14px"
    borderRadius := "8px"
    zIndex := "999999"
    boxShadow := "0 0 12px rgba(0,0,0,0.5)"
    fontFamily := "Poppins, sans-serif"
    transition := "opacity 0.4s ease"
    textContent := message
    opacity := ""
    inDocument := true }

/-- `showWarning(message)`: create the warning `div` when `cheatAlert` is
null, otherwise overwrite its text and reset `style.opacity = "1"`.  The
second component is the delay (in milliseconds) of the `setTimeout` the
call schedules; the timeout body itself is `fadeCallback`. -/
def showWarning (st : SecurityState) (message : String) : SecurityState × Nat :=
  match st.cheatAlert with
  | none =>
      ({ st with cheatAlert := some (freshNotice message)
                 createdCount := st.createdCount + 1 }, 4000)
  | some a =>
      ({ st with cheatAlert := some { a with textContent := message, opacity := "1" } }, 4000)

/-- Body of the `setTimeout` scheduled by `showWarning`: if `cheatAlert` is
non-null, set `style.opacity = "0"`.  Nothing is removed from the page. -/
def fadeCallback (st : SecurityState) : SecurityState :=
  match st.cheatAlert with
  | none => st
  | some a => { st with cheatAlert := some { a with opacity := "0" } }

/-- Message shown by the `visibilitychange` handler. -/
def tabSwitchMessage : String :=
  "⚠️ Tab switch detected! Please stay on this tab during the viva."

/-- Message shown by the `blur` handler. -/
def focusLostMessage : String :=
  "🚫 Focus lost! Please remain in the viva window."

/-- Message shown by the devtools interval handler. -/
def devtoolsMessage : String :=
  "⚠️ Developer tools detected! Please close them to continue viva."

/-- The `visibilitychange` listener: when `document.hidden` is true it
increments `tabSwitchCount`, sets `warningShown` and shows the tab-switch
warning; otherwise it does nothing. -/
def onVisibilitychange (st : SecurityState) (hidden : Bool) : SecurityState × List String :=
  if hidden then
    ((showWarning { st with tabSwitchCount := st.tabSwitchCount + 1
                            warningShown := true } tabSwitchMessage).1,
     [tabSwitchMessage])
  else (st, [])

/-- The `blur` listener: unconditionally increments `tabSwitchCount`, sets
`warningShown` and shows the focus-lost warning. -/
def onBlur (st : SecurityState) : SecurityState × List String :=
  ((showWarning { st with tabSwitchCount := st.tabSwitchCount + 1
                          warningShown := true } focusLostMessage).1,
   [focusLostMessage])

/-- `const threshold = 160` from the source. -/
def threshold : Int := 160

/-- One firing of the 1-second `setInterval` handler, given the current
`outerWidth`, `innerWidth`, `outerHeight`, `innerHeight`.  A strict
comparison against `threshold` on either axis, gated by `devtoolsOpen`,
decides whether the devtools warning fires; otherwise the flag resets. -/
def onTick (st : SecurityState) (outerW innerW outerH innerH : Int) :
    SecurityState × List String :=
  let widthDiff : Bool := decide (outerW - innerW > threshold)
  let heightDiff : Bool := decide (outerH - innerH > threshold)
  if widthDiff || heightDiff then
    if !st.devtoolsOpen then
      ((showWarning { st with devtoolsOpen := true } devtoolsMessage).1,
       [devtoolsMessage])
    else (st, [])
  else ({ st with devtoolsOpen := false }, [])

/-- `window.getEchoVivaCheatCount`: a synchronous read of `tabSwitchCount`. -/
def getEchoVivaCheatCount (st : SecurityState) : Nat :=
  st.tabSwitchCount

/-- The events the environment can deliver to the monitor: a
`visibilitychange` (with the value of `document.hidden`), a window `blur`,
one interval tick (with the four window dimensions), or the firing of a
fade `setTimeout` scheduled by `showWarning`. -/
inductive Event where
  | visibility (hidden : Bool)
  | blur
  | tick (outerW innerW outerH innerH : Int)
  | fade
deriving DecidableEq, Repr

/-- Dispatch one event to the corresponding handler. -/
def stepEvent (st : SecurityState) (e : Event) : SecurityState × List String :=
  match e with
  | Event.visibility hidden => onVisibilitychange st hidden
  | Event.blur => onBlur st
  | Event.tick ow iw oh ih => onTick st ow iw oh ih
  | Event.fade => (fadeCallback st, [])

/-- Run a sequence of events, collecting every warning message shown. -/
def runEvents (st : SecurityState) : List Event → SecurityState × List String
  | [] => (st, [])
  | e :: es =>
      ((runEvents (stepEvent st e).1 es).1,
       (stepEvent st e).2 ++ (runEvents (stepEvent st e).1 es).2)

/-- The number of visibility-hidden and blur events in a sequence. -/
def countSuspicious : List Event → Nat
  | [] => 0
  | Event.visibility true :: es => countSuspicious es + 1
  | Event.blur :: es => countSuspicious es + 1
  | _ :: es => countSuspicious es

lemma showWarning_tabSwitchCount (st : SecurityState) (m : String) :
    ((showWarning st m).1).tabSwitchCount = st.tabSwitchCount := by
  unfold showWarning
  cases st.cheatAlert <;> rfl

lemma stepEvent_tabSwitchCount (st : SecurityState) (e : Event) :
    ((stepEvent st e).1).tabSwitchCount = st.tabSwitchCount + countSuspicious [e] := by
  cases e with
  | visibility hidden =>
      cases hidden <;>
        simp [stepEvent, onVisibilitychange, countSuspicious, showWarning_tabSwitchCount]
  | blur =>
      simp [stepEvent, onBlur, countSuspicious, showWarning_tabSwitchCount]
  | tick ow iw oh ih =>
      simp only [stepEvent, onTick, countSuspicious]
      split
      · split
        · simp [showWarning_tabSwitchCount]
        · rfl
      · rfl
  | fade =>
      simp only [stepEvent, countSuspicious, fadeCallback]
      cases h : st.cheatAlert <;> simp

lemma runEvents_tabSwitchCount (es : List Event) :
    ∀ st : SecurityState,
      ((runEvents st es).1).tabSwitchCount = st.tabSwitchCount + countSuspicious es := by
  induction es with
  | nil => intro st; simp [runEvents, countSuspicious]
  | cons e es ih =>
      intro st
      have he := stepEvent_tabSwitchCount st e
      have hrest := ih (stepEvent st e).1
      simp only [runEvents]
      rw [hrest, he]
      cases e with
      | visibility hidden => cases hidden <;> simp [countSuspicious] <;> try omega
      | blur => simp [countSuspicious]; omega
      | tick ow iw oh ih2 => simp [countSuspicious]
      | fade => simp [countSuspicious]

/-- Claim C1: for every sequence of delivered events, the global accessor
`getEchoVivaCheatCount` returns exactly the number of visibility-hidden and
blur events in the sequence (each adds one; devtools ticks and fade timers
never change the count), and before any events it returns 0. -/
theorem cheatCount_counts_suspicious_events :
    (∀ es : List Event,
        getEchoVivaCheatCount (runEvents initState es).1 = countSuspicious es)
    ∧ getEchoVivaCheatCount initState = 0 := by
  constructor
  · intro es
    have h := runEvents_tabSwitchCount es initState
    simpa [getEchoVivaCheatCount, initState] using h
  · rfl

lemma showWarning_none_eq (st : SecurityState) (m : String) (h : st.cheatAlert = none) :
    showWarning st m =
      ({ st with cheatAlert := some (freshNotice m)
                 createdCount := st.createdCount + 1 }, 4000) := by
  unfold showWarning
  rw [h]

lemma showWarning_some_eq (st : SecurityState) (a : Notice) (m : String)
    (h : st.cheatAlert = some a) :
    showWarning st m =
      ({ st with cheatAlert := some { a with textContent := m, opacity := "1" } }, 4000) := by
  unfold showWarning
  rw [h]

lemma showWarning_text (st : SecurityState) (m : String) :
    (((showWarning st m).1).cheatAlert).map Notice.textContent = some m := by
  cases h : st.cheatAlert with
  | none => rw [showWarning_none_eq st m h]; rfl
  | some a => rw [showWarning_some_eq st a m h]; rfl

/-- The page-level state the IIFE touches at load time: the guard flag
`window.__ECHO_VIVA_SECURITY_LOADED__`, how many `visibilitychange` and
`blur` listeners and how many intervals have been registered, the monitor's
closure state, and whether `window.getEchoVivaCheatCount` is installed. -/
structure PageState where
  securityLoaded : Bool
  visibilityListenerCount : Nat
  blurListenerCount : Nat
  intervalCount : Nat
  monitor : Option SecurityState
  accessorInstalled : Bool
deriving DecidableEq, Repr

/-- Running the IIFE: if the guard flag is set it returns immediately;
otherwise it sets the flag, registers one listener of each kind and one
interval, initialises the closure state and installs the accessor. -/
def loadScript (p : PageState) : PageState :=
  if p.securityLoaded then p
  else
    { securityLoaded := true
      visibilityListenerCount := p.visibilityListenerCount + 1
      blurListenerCount := p.blurListenerCount + 1
      intervalCount := p.intervalCount + 1
      monitor := some initState
      accessorInstalled := true }

/-- Claim C2: the guard flag makes a second run of the load sequence a
no-op.  On any page whose guard flag is set — in particular any page a
prior load produced, whatever the monitor state has since become — running
the IIFE again changes nothing: no listeners or timers are added, and the
counter, notice reference and all other monitor state are untouched; and
every load leaves the flag set, so injection is idempotent. -/
theorem loadScript_idempotent :
    (∀ p : PageState, p.securityLoaded = true → loadScript p = p)
    ∧ (∀ p : PageState, (loadScript p).securityLoaded = true) := by
  constructor
  · intro p h
    simp [loadScript, h]
  · intro p
    by_cases h : p.securityLoaded = true <;> simp [loadScript, h]

/-- Witness for C2 at a page whose monitor has already counted 5 events:
reloading changes nothing. -/
theorem loadScript_idempotent_witness :
    loadScript
        { securityLoaded := true
          visibilityListenerCount := 1
          blurListenerCount := 1
          intervalCount := 1
          monitor := some { initState with tabSwitchCount := 5 }
          accessorInstalled := true } =
      { securityLoaded := true
        visibilityListenerCount := 1
        blurListenerCount := 1
        intervalCount := 1
        monitor := some { initState with tabSwitchCount := 5 }
        accessorInstalled := true } :=
  loadScript_idempotent.1 _ rfl

/-- Iterate `showWarning` over a list of messages, keeping only the state. -/
def runShowWarnings (st : SecurityState) : List String → SecurityState
  | [] => st
  | m :: ms => runShowWarnings (showWarning st m).1 ms

lemma runShowWarnings_append_last (st : SecurityState) (ms : List String) (m : String) :
    runShowWarnings st (ms ++ [m]) = (showWarning (runShowWarnings st ms) m).1 := by
  induction ms generalizing st with
  | nil => rfl
  | cons x xs ih => simp [runShowWarnings, ih]

/-- Claim C4: after any non-empty sequence of `showWarning` calls the
notice element exists and its visible text is exactly the message of the
most recent call, whether that last call created the element or reused it. -/
theorem showWarning_last_message (st : SecurityState) (ms : List String) (m : String) :
    (((runShowWarnings st (ms ++ [m])).cheatAlert).map Notice.textContent) = some m := by
  rw [runShowWarnings_append_last]
  exact showWarning_text _ m

/-- Claim C5: every `showWarning` call schedules its fade `setTimeout` with
a 4000 ms delay; the fade callback only sets the notice's opacity to "0",
leaving the element in the document (it removes nothing, and every other
property is unchanged); and a further call while the element exists
interrupts the fade by resetting opacity to "1" and schedules a fresh
4000 ms fade. -/
theorem showWarning_fade_behaviour :
    (∀ (st : SecurityState) (m : String), (showWarning st m).2 = 4000)
    ∧ (∀ (st : SecurityState) (a : Notice), st.cheatAlert = some a →
        (fadeCallback st).cheatAlert = some { a with opacity := "0" })
    ∧ (∀ (st : SecurityState) (a : Notice) (m : String), st.cheatAlert = some a →
        (showWarning st m).1.cheatAlert = some { a with textContent := m, opacity := "1" }
        ∧ (showWarning st m).2 = 4000) := by
  refine ⟨?_, ?_, ?_⟩
  · intro st m
    unfold showWarning
    cases st.cheatAlert <;> rfl
  · intro st a h
    unfold fadeCallback
    rw [h]
  · intro st a m h
    rw [showWarning_some_eq st a m h]
    exact ⟨rfl, rfl⟩

/-- Witness for C5 on a state holding a freshly created notice. -/
theorem showWarning_fade_behaviour_witness :
    (showWarning { initState with cheatAlert := some (freshNotice "hi") } "next").2 = 4000
    ∧ (fadeCallback { initState with cheatAlert := some (freshNotice "hi") }).cheatAlert
        = some { freshNotice "hi" with opacity := "0" }
    ∧ (showWarning { initState with cheatAlert := some (freshNotice "hi") } "next").1.cheatAlert
        = some { freshNotice "hi" with textContent := "next", opacity := "1" } :=
  ⟨showWarning_fade_behaviour.1 _ "next",
   showWarning_fade_behaviour.2.1 _ (freshNotice "hi") rfl,
   (showWarning_fade_behaviour.2.2 _ (freshNotice "hi") "next" rfl).1⟩

/-- Claim C6: the counter is a natural number and every operation of the
monitor either leaves it unchanged or increments it by exactly one: this
holds for each event handler (visibility, blur, tick, fade timer), for
`showWarning` itself, and the accessor is a pure read of the counter. -/
theorem tabSwitchCount_monotone_step :
    (∀ (st : SecurityState) (e : Event),
        ((stepEvent st e).1).tabSwitchCount = st.tabSwitchCount
        ∨ ((stepEvent st e).1).tabSwitchCount = st.tabSwitchCount + 1)
    ∧ (∀ (st : SecurityState) (m : String),
        ((showWarning st m).1).tabSwitchCount = st.tabSwitchCount)
    ∧ (∀ st : SecurityState, getEchoVivaCheatCount st = st.tabSwitchCount) := by
  refine ⟨?_, showWarning_tabSwitchCount, fun _ => rfl⟩
  intro st e
  have h := stepEvent_tabSwitchCount st e
  cases e with
  | visibility hidden =>
      cases hidden
      · left; simpa [countSuspicious] using h
      · right; simpa [countSuspicious] using h
  | blur => right; simpa [countSuspicious] using h
  | tick ow iw oh ih => left; simpa [countSuspicious] using h
  | fade => left; simpa [countSuspicious] using h

/-- Claim C9: a delta exactly equal to the 160 px threshold on both axes is
not a breach: the comparison is strict, so such a tick fires no warning and
leaves the suspicion flag cleared. -/
theorem threshold_equality_not_breach (st : SecurityState) (innerW innerH : Int) :
    onTick st (innerW + 160) innerW (innerH + 160) innerH
      = ({ st with devtoolsOpen := false }, []) := by
  unfold onTick threshold
  norm_num

/-- Claim C10: when the notice element already exists, `showWarning` only
overwrites its `textContent` and sets its opacity to "1"; every style
property fixed at creation, the element's presence in the document, and all
other monitor state are left exactly as they were. -/
theorem showWarning_reuse_frame (st : SecurityState) (a : Notice) (m : String)
    (h : st.cheatAlert = some a) :
    (showWarning st m).1
      = { st with cheatAlert := some { a with textContent := m, opacity := "1" } } := by
  rw [showWarning_some_eq st a m h]

/-- Witness for C10: reusing a notice created for "hi" with message "next"
changes only its text and opacity. -/
theorem showWarning_reuse_frame_witness :
    (showWarning { initState with cheatAlert := some (freshNotice "hi") } "next").1
      = { initState with
            cheatAlert := some { freshNotice "hi" with textContent := "next", opacity := "1" } } :=
  showWarning_reuse_frame _ (freshNotice "hi") "next" rfl

/-- Invariant tying the ghost creation counter to the notice reference:
`document.createElement` has run exactly once when `cheatAlert` is set and
never when it is null. -/
def oneNoticeInv (st : SecurityState) : Prop :=
  st.createdCount = if (st.cheatAlert).isSome then 1 else 0

lemma showWarning_cheatAlert_isSome (st : SecurityState) (m : String) :
    (((showWarning st m).1).cheatAlert).isSome = true := by
  cases h : st.cheatAlert with
  | none => rw [showWarning_none_eq st m h]; rfl
  | some a => rw [showWarning_some_eq st a m h]; rfl

lemma showWarning_oneNoticeInv (st : SecurityState) (m : String) (h : oneNoticeInv st) :
    oneNoticeInv ((showWarning st m).1) := by
  unfold oneNoticeInv at h ⊢
  cases hc : st.cheatAlert with
  | none => rw [showWarning_none_eq st m hc]; simp [hc] at h; simp [h]
  | some a => rw [showWarning_some_eq st a m hc]; simp [hc] at h; simp [h]

lemma fadeCallback_cheatAlert_isSome (fst : SecurityState)
    (h : ((fst.cheatAlert)).isSome = true) :
    (((fadeCallback fst).cheatAlert)).isSome = true := by
  unfold fadeCallback
  cases hc : fst.cheatAlert with
  | none => rw [hc] at h; cases h
  | some a => rfl

lemma fadeCallback_oneNoticeInv (fst : SecurityState) (h : oneNoticeInv fst) :
    oneNoticeInv (fadeCallback fst) := by
  unfold oneNoticeInv at h ⊢
  unfold fadeCallback
  cases hc : fst.cheatAlert with
  | none => simpa [hc] using h
  | some a => simpa [hc] using h

lemma stepEvent_oneNoticeInv (st : SecurityState) (e : Event) (h : oneNoticeInv st) :
    oneNoticeInv ((stepEvent st e).1) := by
  cases e with
  | visibility hidden =>
      cases hidden
      · simpa [stepEvent, onVisibilitychange] using h
      · simp only [stepEvent, onVisibilitychange, if_true]
        exact showWarning_oneNoticeInv _ _ (by simpa [oneNoticeInv] using h)
  | blur =>
      simp only [stepEvent, onBlur]
      exact showWarning_oneNoticeInv _ _ (by simpa [oneNoticeInv] using h)
  | tick ow iw oh ih =>
      simp only [stepEvent, onTick]
      split
      · split
        · exact showWarning_oneNoticeInv _ _ (by simpa [oneNoticeInv] using h)
        · exact h
      · simpa [oneNoticeInv] using h
  | fade =>
      simp only [stepEvent]
      exact fadeCallback_oneNoticeInv _ h

lemma runEvents_oneNoticeInv (es : List Event) :
    ∀ st : SecurityState, oneNoticeInv st → oneNoticeInv ((runEvents st es).1) := by
  induction es with
  | nil => intro st h; simpa [runEvents] using h
  | cons e es ih =>
      intro st h
      simp only [runEvents]
      exact ih _ (stepEvent_oneNoticeInv st e h)

lemma stepEvent_cheatAlert_isSome (st : SecurityState) (e : Event)
    (h : ((st.cheatAlert)).isSome = true) :
    ((((stepEvent st e).1).cheatAlert)).isSome = true := by
  cases e with
  | visibility hidden =>
      cases hidden
      · simpa [stepEvent, onVisibilitychange] using h
      · simp only [stepEvent, onVisibilitychange, if_true]
        exact showWarning_cheatAlert_isSome _ _
  | blur =>
      simp only [stepEvent, onBlur]
      exact showWarning_cheatAlert_isSome _ _
  | tick ow iw oh ih =>
      simp only [stepEvent, onTick]
      split
      · split
        · exact showWarning_cheatAlert_isSome _ _
        · exact h
      · simpa using h
  | fade =>
      simp only [stepEvent]
      exact fadeCallback_cheatAlert_isSome _ h

/-- Claim C7: over the whole lifetime of the monitor at most one notice
element is ever created (the ghost creation counter never exceeds 1 on any
event sequence from the initial state); when the reference is set,
`showWarning` creates nothing and reuses the stored element, only updating
its text and opacity; and no handler ever clears the reference back to
null. -/
theorem at_most_one_notice_element :
    (∀ es : List Event, ((runEvents initState es).1).createdCount ≤ 1)
    ∧ (∀ (st : SecurityState) (a : Notice) (m : String), st.cheatAlert = some a →
        ((showWarning st m).1).createdCount = st.createdCount
        ∧ (showWarning st m).1.cheatAlert
            = some { a with textContent := m, opacity := "1" })
    ∧ (∀ (st : SecurityState) (e : Event), ((st.cheatAlert)).isSome = true →
        ((((stepEvent st e).1).cheatAlert)).isSome = true) := by
  refine ⟨?_, ?_, stepEvent_cheatAlert_isSome⟩
  · intro es
    have h := runEvents_oneNoticeInv es initState (by simp [oneNoticeInv, initState])
    unfold oneNoticeInv at h
    rw [h]
    split <;> omega
  · intro st a m h
    rw [showWarning_some_eq st a m h]
    exact ⟨rfl, rfl⟩

/-- Witness for C7: with a notice already stored, a reuse call creates
nothing, and a fade event never clears the reference. -/
theorem at_most_one_notice_element_witness :
    (((showWarning { initState with cheatAlert := some (freshNotice "w1"), createdCount := 1 }
        "w2").1).createdCount = 1
      ∧ (showWarning { initState with cheatAlert := some (freshNotice "w1"), createdCount := 1 }
          "w2").1.cheatAlert
          = some { freshNotice "w1" with textContent := "w2", opacity := "1" })
    ∧ ((((stepEvent { initState with cheatAlert := some (freshNotice "w1"), createdCount := 1 }
        Event.fade).1).cheatAlert)).isSome = true :=
  ⟨at_most_one_notice_element.2.1 _ (freshNotice "w1") "w2" rfl,
   at_most_one_notice_element.2.2 _ Event.fade rfl⟩

/-- Whether one interval tick sees a breach: the strict threshold
comparison on either axis, exactly as computed in the interval handler. -/
def breachTick (outerW innerW outerH innerH : Int) : Bool :=
  decide (outerW - innerW > threshold) || decide (outerH - innerH > threshold)

/-- The tick events corresponding to a list of dimension quadruples
(outerWidth, innerWidth, outerHeight, innerHeight). -/
def tickEvents (ts : List (Int × Int × Int × Int)) : List Event :=
  ts.map fun t => Event.tick t.1 t.2.1 t.2.2.1 t.2.2.2

/-- The breach flag of each tick in a list of dimension quadruples. -/
def breachFlags (ts : List (Int × Int × Int × Int)) : List Bool :=
  ts.map fun t => breachTick t.1 t.2.1 t.2.2.1 t.2.2.2

/-- The number of rising edges in a sequence of breach flags given the
current value of the suspicion flag: each maximal run of `true`s counts
once, and a leading run counts only if the flag starts out clear. -/
def countRuns (prev : Bool) : List Bool → Nat
  | [] => 0
  | b :: bs => (if b && !prev then 1 else 0) + countRuns b bs

lemma showWarning_devtoolsOpen (st : SecurityState) (m : String) :
    ((showWarning st m).1).devtoolsOpen = st.devtoolsOpen := by
  unfold showWarning
  cases st.cheatAlert <;> rfl

lemma countRuns_all_false (prev : Bool) (bs : List Bool)
    (h : ∀ b ∈ bs, b = false) : countRuns prev bs = 0 := by
  induction bs generalizing prev with
  | nil => rfl
  | cons b bs ih =>
      have hb : b = false := h b (List.mem_cons_self b bs)
      subst hb
      simp only [countRuns, Bool.false_and, if_neg Bool.false_ne_true, Nat.zero_add]
      exact ih false fun x hx => h x (List.mem_cons_of_mem _ hx)

lemma onTick_eq (st : SecurityState) (outerW innerW outerH innerH : Int) :
    onTick st outerW innerW outerH innerH =
      if breachTick outerW innerW outerH innerH then
        if !st.devtoolsOpen then
          ((showWarning { st with devtoolsOpen := true } devtoolsMessage).1,
           [devtoolsMessage])
        else (st, [])
      else ({ st with devtoolsOpen := false }, []) := rfl

lemma tickEvents_cons (t : Int × Int × Int × Int) (ts : List (Int × Int × Int × Int)) :
    tickEvents (t :: ts) = Event.tick t.1 t.2.1 t.2.2.1 t.2.2.2 :: tickEvents ts := rfl

lemma breachFlags_cons (t : Int × Int × Int × Int) (ts : List (Int × Int × Int × Int)) :
    breachFlags (t :: ts) = breachTick t.1 t.2.1 t.2.2.1 t.2.2.2 :: breachFlags ts := rfl

lemma runEvents_tick_count (ts : List (Int × Int × Int × Int)) :
    ∀ st : SecurityState,
      ((runEvents st (tickEvents ts)).2).count devtoolsMessage
        = countRuns st.devtoolsOpen (breachFlags ts) := by
  induction ts with
  | nil => intro st; simp [tickEvents, breachFlags, runEvents, countRuns]
  | cons t ts ih =>
      intro st
      rw [tickEvents_cons, breachFlags_cons]
      simp only [runEvents, countRuns]
      have hstep :
          stepEvent st (Event.tick t.1 t.2.1 t.2.2.1 t.2.2.2)
            = onTick st t.1 t.2.1 t.2.2.1 t.2.2.2 := rfl
      rw [hstep, onTick_eq]
      by_cases hb : breachTick t.1 t.2.1 t.2.2.1 t.2.2.2 = true
      · by_cases hd : st.devtoolsOpen = true
        · rw [if_pos hb]
          rw [if_neg (by simp [hd])]
          simpa [hb, hd, List.count_cons] using ih st
        · have hd' : st.devtoolsOpen = false := by
            cases hdo : st.devtoolsOpen
            · rfl
            · exact absurd hdo hd
          rw [if_pos hb, if_pos (by simp [hd'])]
          have hrec := ih (showWarning { st with devtoolsOpen := true } devtoolsMessage).1
          rw [showWarning_devtoolsOpen] at hrec
          simp [hb, hd', List.count_cons, List.count_append, hrec]
          omega
      · have hb' : breachTick t.1 t.2.1 t.2.2.1 t.2.2.2 = false := by
          cases hbo : breachTick t.1 t.2.1 t.2.2.1 t.2.2.2
          · rfl
          · exact absurd hbo hb
        rw [if_neg (by simp [hb'])]
        simpa [hb', List.count_cons] using ih { st with devtoolsOpen := false }

/-- Claim C3: over any sequence of 1-second interval ticks from the initial
state, the devtools warning fires exactly once per maximal run of breached
ticks (a tick is breached when either axis delta strictly exceeds 160 px):
while no tick is breached nothing fires, a first breached tick fires one
warning, later ticks of the same breached run fire nothing, and after a
tick with both deltas back to normal resets the flag the next breach fires
exactly one more; in particular, if every tick is unbreached no devtools
warning ever fires. -/
theorem devtools_warning_once_per_breach :
    (∀ ts : List (Int × Int × Int × Int),
        ((runEvents initState (tickEvents ts)).2).count devtoolsMessage
          = countRuns false (breachFlags ts))
    ∧ (∀ ts : List (Int × Int × Int × Int),
        (∀ t ∈ ts, breachTick t.1 t.2.1 t.2.2.1 t.2.2.2 = false) →
        ((runEvents initState (tickEvents ts)).2).count devtoolsMessage = 0) := by
  constructor
  · intro ts
    exact runEvents_tick_count ts initState
  · intro ts h
    rw [runEvents_tick_count ts initState]
    refine countRuns_all_false _ _ ?_
    intro b hb
    simp only [breachFlags, List.mem_map] at hb
    obtain ⟨t, ht, rfl⟩ := hb
    exact h t ht

/-- Witness for C3 on three concrete ticks that never breach the
threshold: no devtools warning fires. -/
theorem devtools_warning_once_per_breach_witness :
    ((runEvents initState
        (tickEvents [(900, 800, 700, 600), (1000, 900, 800, 700), (500, 500, 500, 500)])).2).count
        devtoolsMessage = 0 :=
  devtools_warning_once_per_breach.2
    [(900, 800, 700, 600), (1000, 900, 800, 700), (500, 500, 500, 500)] (by decide)

/-- The `visibilitychange` listener with the `warningShown = true`
assignment removed (the claimed-dead flag is never written). -/
def onVisibilitychangeNF (st : SecurityState) (hidden : Bool) : SecurityState × List String :=
  if hidden then
    ((showWarning { st with tabSwitchCount := st.tabSwitchCount + 1 } tabSwitchMessage).1,
     [tabSwitchMessage])
  else (st, [])

/-- The `blur` listener with the `warningShown = true` assignment removed. -/
def onBlurNF (st : SecurityState) : SecurityState × List String :=
  ((showWarning { st with tabSwitchCount := st.tabSwitchCount + 1 } focusLostMessage).1,
   [focusLostMessage])

/-- Event dispatch for the program with every `warningShown` assignment
removed; the tick and fade handlers never touched the flag, so they are
shared unchanged. -/
def stepEventNF (st : SecurityState) (e : Event) : SecurityState × List String :=
  match e with
  | Event.visibility hidden => onVisibilitychangeNF st hidden
  | Event.blur => onBlurNF st
  | Event.tick ow iw oh ih => onTick st ow iw oh ih
  | Event.fade => (fadeCallback st, [])

/-- Run a sequence of events through the `warningShown`-free program. -/
def runEventsNF (st : SecurityState) : List Event → SecurityState × List String
  | [] => (st, [])
  | e :: es =>
      ((runEventsNF (stepEventNF st e).1 es).1,
       (stepEventNF st e).2 ++ (runEventsNF (stepEventNF st e).1 es).2)

/-- The observable part of the monitor state: counter, notice element,
devtools flag and the ghost creation counter — everything except the
`warningShown` flag. -/
def obs (st : SecurityState) : Nat × Option Notice × Bool × Nat :=
  (st.tabSwitchCount, st.cheatAlert, st.devtoolsOpen, st.createdCount)

lemma showWarning_obs (st st' : SecurityState) (m : String) (h : obs st = obs st') :
    obs ((showWarning st m).1) = obs ((showWarning st' m).1) := by
  obtain ⟨w, c, al, d, cr⟩ := st
  obtain ⟨w', c', al', d', cr'⟩ := st'
  simp only [obs, Prod.mk.injEq] at h
  obtain ⟨h1, h2, h3, h4⟩ := h
  subst h1; subst h2; subst h3; subst h4
  unfold showWarning
  cases al <;> rfl

lemma stepEvent_obs (st st' : SecurityState) (e : Event) (h : obs st = obs st') :
    obs ((stepEvent st e).1) = obs ((stepEventNF st' e).1)
    ∧ (stepEvent st e).2 = (stepEventNF st' e).2 := by
  obtain ⟨w, c, al, d, cr⟩ := st
  obtain ⟨w', c', al', d', cr'⟩ := st'
  simp only [obs, Prod.mk.injEq] at h
  obtain ⟨h1, h2, h3, h4⟩ := h
  subst h1; subst h2; subst h3; subst h4
  cases e with
  | visibility hidden =>
      cases hidden
      · exact ⟨rfl, rfl⟩
      · refine ⟨?_, rfl⟩
        exact showWarning_obs
          ⟨true, c + 1, al, d, cr⟩ ⟨w', c + 1, al, d, cr⟩ tabSwitchMessage rfl
  | blur =>
      refine ⟨?_, rfl⟩
      exact showWarning_obs
        ⟨true, c + 1, al, d, cr⟩ ⟨w', c + 1, al, d, cr⟩ focusLostMessage rfl
  | tick ow iw oh ih =>
      simp only [stepEvent, stepEventNF, onTick_eq]
      by_cases hb : breachTick ow iw oh ih = true
      · rw [if_pos hb, if_pos hb]
        cases d with
        | false =>
            refine ⟨?_, by simp⟩
            have hsim := showWarning_obs
              ⟨w, c, al, true, cr⟩ ⟨w', c, al, true, cr⟩ devtoolsMessage rfl
            simpa using hsim
        | true =>
            exact ⟨by simp [obs], by simp⟩
      · rw [if_neg hb, if_neg hb]
        exact ⟨by simp [obs], rfl⟩
  | fade =>
      simp only [stepEvent, stepEventNF]
      refine ⟨?_, trivial⟩
      unfold fadeCallback
      cases al <;> rfl

lemma runEvents_obs (es : List Event) :
    ∀ st st' : SecurityState, obs st = obs st' →
      obs ((runEvents st es).1) = obs ((runEventsNF st' es).1)
      ∧ (runEvents st es).2 = (runEventsNF st' es).2 := by
  induction es with
  | nil => intro st st' h; exact ⟨h, rfl⟩
  | cons e es ih =>
      intro st st' h
      obtain ⟨ho, hw⟩ := stepEvent_obs st st' e h
      obtain ⟨ho2, hw2⟩ := ih (stepEvent st e).1 (stepEventNF st' e).1 ho
      constructor
      · simpa [runEvents, runEventsNF] using ho2
      · simp only [runEvents, runEventsNF]
        rw [hw, hw2]

/-- Claim C8: `warningShown` is dead state.  The program obtained by
deleting the flag's assignments (`runEventsNF`) is observationally
equivalent to the program as written: for every event sequence from load,
both produce the same counter value, the same notice element, the same
devtools flag, the same number of creations, and the same warnings. -/
theorem warningShown_is_dead_state (es : List Event) :
    obs ((runEvents initState es).1) = obs ((runEventsNF initState es).1)
    ∧ (runEvents initState es).2 = (runEventsNF initState es).2 :=
  runEvents_obs es initState initState rfl
